import Mathlib

/-!
Shallow embedding of the financial projection and root-finding engine of
`AdvanceSIPV1.py` (SIP calculator): the XIRR solver (Newton-Raphson with
bisection fallback), the inflation-adjustment transform, the month-by-month
compounding simulation, the two bisection-based inverse solvers, the
retirement-withdrawal simulator, and the top-level calculation drivers.

Python floats are modelled as real numbers, `datetime` values as real-valued
timestamps measured in days, `timedelta.days` as the floor of a real day
difference, exceptions as `Except String`/`Option`, and Python's `int(...)`
truncation and `round(...)` banker's rounding by the explicit functions
`pyInt` and `pyRound0`/`pyRound1`/`pyRound2` below.  Reporting-only
aggregation tables (yearly progress, inflation-adjusted progress) and all
printing/export side effects are display-only sinks in the source and are
not modelled; every accumulator that feeds a numeric output is.
-/

noncomputable section

namespace AdvanceSIP

open Finset

/-- Python `int(x)` for a float: truncation toward zero. -/
def pyInt (x : ℝ) : ℤ := if 0 ≤ x then ⌊x⌋ else ⌈x⌉

/-- Python `round(x)` / `round(x, 0)`: round half to even, as a real. -/
def pyRound0 (x : ℝ) : ℝ :=
  if x - ⌊x⌋ = 1 / 2 then (if Even ⌊x⌋ then (⌊x⌋ : ℝ) else (⌊x⌋ : ℝ) + 1)
  else (round x : ℤ)

/-- Python `round(x, 1)`. -/
def pyRound1 (x : ℝ) : ℝ := pyRound0 (x * 10) / 10

/-- Python `round(x, 2)`. -/
def pyRound2 (x : ℝ) : ℝ := pyRound0 (x * 100) / 100

/-- `(d1 - d0).days` for two timestamps measured in (possibly fractional)
days: the whole-day component of a normalized `timedelta`, i.e. the floor. -/
def pydays (x : ℝ) : ℝ := (⌊x⌋ : ℤ)

/-! ## XIRR solver: `CalculateReturns` -/

/-- The net-present-value objective `CalculateNetPresentValue` closed over
the cashflow series: `Σ cf / (1+Rate)^((d - Dates[0]).days / 365.25)`. -/
def npvAt (Cashflows Dates : List ℝ) (Rate : ℝ) : ℝ :=
  ((Cashflows.zip Dates).map
    (fun p => p.1 / (1 + Rate) ^ (pydays (p.2 - Dates.headI) / 365.25))).sum

/-- The Newton-Raphson loop of `CalculateReturns`.  `some v` means the loop
hit `return Rate * 100` with value `v`; `none` means it broke out (tiny
derivative) or exhausted its iteration budget and fell through to bisection. -/
def newtonPhase (npv : ℝ → ℝ) (Precision : ℝ) : ℕ → ℝ → Option ℝ
  | 0, _ => none
  | n + 1, Rate =>
    let Npv := npv Rate
    if |Npv| < Precision then some (Rate * 100)
    else
      let Derivative := (npv (Rate + 1e-6) - Npv) / 1e-6
      if |Derivative| < 1e-10 then none
      else newtonPhase npv Precision n (Rate - Npv / Derivative)

/-- The bisection fallback loop of `CalculateReturns`; the last argument
carries the most recently computed midpoint, which is returned (times 100)
when the iteration budget runs out, mirroring `return Mid * 100`. -/
def bisectPhase (npv : ℝ → ℝ) (Precision : ℝ) : ℕ → ℝ → ℝ → ℝ → ℝ
  | 0, _, _, lastMid => lastMid * 100
  | n + 1, Low, High, _ =>
    let Mid := (Low + High) / 2
    let MidNpv := npv Mid
    if |MidNpv| < Precision then Mid * 100
    else if MidNpv * npv Low > 0 then bisectPhase npv Precision n Mid High Mid
    else bisectPhase npv Precision n Low Mid Mid

/-- `CalculateReturns(Cashflows, Dates, MaxIterations, Precision)`.
`none` models the `ValueError` on mismatched lengths. -/
def CalculateReturns (Cashflows Dates : List ℝ) (MaxIterations : ℕ)
    (Precision : ℝ) : Option ℝ :=
  if Cashflows.length ≠ Dates.length then none
  else
    let TotalInvested := (Cashflows.filter (fun cf => decide (cf < 0))).sum
    let FinalValue := (Cashflows.filter (fun cf => decide (cf > 0))).sum
    if TotalInvested = 0 ∨ FinalValue = 0 then some 0
    else
      let Years := pydays (Dates.getLastD 0 - Dates.headI) / 365.25
      let InitialGuess :=
        if 0 < Years then (FinalValue / |TotalInvested|) ^ (1 / Years) - 1
        else 0.1
      let Rate0 := max (-0.99) (min InitialGuess 5.0)
      match newtonPhase (npvAt Cashflows Dates) Precision MaxIterations Rate0 with
      | some v => some v
      | none => some (bisectPhase (npvAt Cashflows Dates) Precision MaxIterations
          (-0.99) 5.0 0)

/-- The Newton loop at the level of the (unscaled) rate: identical control
flow to `newtonPhase` but returning the found rate itself. -/
def newtonRate (npv : ℝ → ℝ) (Precision : ℝ) : ℕ → ℝ → Option ℝ
  | 0, _ => none
  | n + 1, Rate =>
    let Npv := npv Rate
    if |Npv| < Precision then some Rate
    else
      let Derivative := (npv (Rate + 1e-6) - Npv) / 1e-6
      if |Derivative| < 1e-10 then none
      else newtonRate npv Precision n (Rate - Npv / Derivative)

/-- The bisection loop at the level of the (unscaled) rate. -/
def bisectRate (npv : ℝ → ℝ) (Precision : ℝ) : ℕ → ℝ → ℝ → ℝ → ℝ
  | 0, _, _, lastMid => lastMid
  | n + 1, Low, High, _ =>
    let Mid := (Low + High) / 2
    let MidNpv := npv Mid
    if |MidNpv| < Precision then Mid
    else if MidNpv * npv Low > 0 then bisectRate npv Precision n Mid High Mid
    else bisectRate npv Precision n Low Mid Mid

/-- The rate found by `CalculateReturns` before the final scaling to a
percentage (meaningful only in the non-degenerate case). -/
def findRate (Cashflows Dates : List ℝ) (MaxIterations : ℕ)
    (Precision : ℝ) : ℝ :=
  let TotalInvested := (Cashflows.filter (fun cf => decide (cf < 0))).sum
  let FinalValue := (Cashflows.filter (fun cf => decide (cf > 0))).sum
  let Years := pydays (Dates.getLastD 0 - Dates.headI) / 365.25
  let InitialGuess :=
    if 0 < Years then (FinalValue / |TotalInvested|) ^ (1 / Years) - 1
    else 0.1
  let Rate0 := max (-0.99) (min InitialGuess 5.0)
  match newtonRate (npvAt Cashflows Dates) Precision MaxIterations Rate0 with
  | some v => v
  | none => bisectRate (npvAt Cashflows Dates) Precision MaxIterations
      (-0.99) 5.0 0

/-! ## Inflation adjustment: `CalculateInflationAdjustedReturns` -/

/-- The cashflow rescaling performed by `CalculateInflationAdjustedReturns`:
outflows are inflated by `(1+InflationRate)^Years`, inflows deflated. -/
def inflationAdjust (Cashflows Dates : List ℝ) (InflationRate : ℝ) : List ℝ :=
  (Cashflows.zip Dates).map (fun p =>
    let Years := pydays (p.2 - Dates.headI) / 365.25
    if p.1 < 0 then p.1 * (1 + InflationRate) ^ Years
    else p.1 / (1 + InflationRate) ^ Years)

/-- `CalculateInflationAdjustedReturns(Cashflows, Dates, InflationRate)`:
re-runs `CalculateReturns` (with its default budget and precision) on the
adjusted series. -/
def CalculateInflationAdjustedReturns (Cashflows Dates : List ℝ)
    (InflationRate : ℝ) : Option ℝ :=
  CalculateReturns (inflationAdjust Cashflows Dates InflationRate) Dates
    200 (1e-6)

/-! ### Helper lemmas for the solver -/

theorem newtonPhase_eq_map (npv : ℝ → ℝ) (Precision : ℝ) :
    ∀ (n : ℕ) (Rate : ℝ),
      newtonPhase npv Precision n Rate
        = (newtonRate npv Precision n Rate).map (fun v => v * 100) := by
  intro n
  induction n with
  | zero => intro Rate; rfl
  | succ n ih =>
    intro Rate
    rw [newtonPhase, newtonRate]
    by_cases h1 : |npv Rate| < Precision
    · simp [h1]
    · by_cases h2 : |(npv (Rate + 1e-6) - npv Rate) / 1e-6| < 1e-10
      · simp [h1, h2]
      · simp only [h1, h2, if_false]
        exact ih _

theorem bisectPhase_eq_scaled (npv : ℝ → ℝ) (Precision : ℝ) :
    ∀ (n : ℕ) (Low High lastMid : ℝ),
      bisectPhase npv Precision n Low High lastMid
        = bisectRate npv Precision n Low High lastMid * 100 := by
  intro n
  induction n with
  | zero => intro Low High lastMid; rfl
  | succ n ih =>
    intro Low High lastMid
    rw [bisectPhase, bisectRate]
    by_cases h1 : |npv ((Low + High) / 2)| < Precision
    · simp [h1]
    · by_cases h2 : npv ((Low + High) / 2) * npv Low > 0
      · simp only [h1, h2, if_false, if_true]; exact ih _ _ _
      · simp only [h1, h2, if_false]; exact ih _ _ _

/-- **C3.** For equal-length cashflow and date lists: if the sum of the
negative cashflows is zero or the sum of the positive cashflows is zero,
`CalculateReturns` returns exactly `0.0`, whatever iteration budget and
precision it is given (no root-finding is attempted); otherwise its result
is the rate found by the Newton/bisection pipeline multiplied by 100. -/
theorem calculateReturns_degenerate_and_percent_scaling
    (Cashflows Dates : List ℝ) (MaxIterations : ℕ) (Precision : ℝ)
    (hlen : Cashflows.length = Dates.length) :
    (((Cashflows.filter (fun cf => decide (cf < 0))).sum = 0 ∨
        (Cashflows.filter (fun cf => decide (cf > 0))).sum = 0) →
      ∀ (mi : ℕ) (pr : ℝ), CalculateReturns Cashflows Dates mi pr = some 0)
    ∧ (¬((Cashflows.filter (fun cf => decide (cf < 0))).sum = 0 ∨
          (Cashflows.filter (fun cf => decide (cf > 0))).sum = 0) →
        CalculateReturns Cashflows Dates MaxIterations Precision
          = some (100 * findRate Cashflows Dates MaxIterations Precision)) := by
  constructor
  · intro hdeg mi pr
    rw [CalculateReturns]
    simp only [hlen, ne_eq, not_true_eq_false, if_false, hdeg, if_true]
  · intro hnot
    rw [CalculateReturns, findRate]
    simp only [hlen, ne_eq, not_true_eq_false, if_false, hnot, if_true]
    rw [newtonPhase_eq_map]
    cases hres : newtonRate (npvAt Cashflows Dates) Precision MaxIterations
        (max (-0.99) (min (if 0 < pydays (Dates.getLastD 0 - Dates.headI) / 365.25
          then ((Cashflows.filter (fun cf => decide (cf > 0))).sum /
            |(Cashflows.filter (fun cf => decide (cf < 0))).sum|) ^
              (1 / (pydays (Dates.getLastD 0 - Dates.headI) / 365.25)) - 1
          else 0.1) 5.0)) with
    | some v => simp [hres, mul_comm]
    | none => simp [hres, bisectPhase_eq_scaled, mul_comm]

/-- Witness for C3 at concrete inputs: a series with no negative entry is
degenerate and returns `0.0`; the series `[-1, 2]` over `[0, 400]` is not
degenerate and returns `100 ×` the found rate. -/
theorem calculateReturns_degenerate_and_percent_scaling_witness :
    CalculateReturns [(1 : ℝ), 2] [0, 400] 200 (1e-6) = some 0
    ∧ CalculateReturns [(-1 : ℝ), 2] [0, 400] 200 (1e-6)
        = some (100 * findRate [(-1 : ℝ), 2] [0, 400] 200 (1e-6)) := by
  constructor
  · exact (calculateReturns_degenerate_and_percent_scaling
      [(1 : ℝ), 2] [0, 400] 200 (1e-6) rfl).1
      (by norm_num [List.filter]) 200 (1e-6)
  · exact (calculateReturns_degenerate_and_percent_scaling
      [(-1 : ℝ), 2] [0, 400] 200 (1e-6) rfl).2
      (by norm_num [List.filter])

/-- **C6.** For equal-length cashflow and date series, the inflation
transform with inflation rate `0` is the identity on the cashflows (scaling
by `(1+0)^Δyears` or its reciprocal), so
`CalculateInflationAdjustedReturns` reproduces the nominal XIRR of the
original series exactly. -/
theorem inflation_zero_reproduces_nominal_xirr (Cashflows Dates : List ℝ)
    (hlen : Cashflows.length = Dates.length) :
    inflationAdjust Cashflows Dates 0 = Cashflows
    ∧ CalculateInflationAdjustedReturns Cashflows Dates 0
        = CalculateReturns Cashflows Dates 200 (1e-6) := by
  have hid : inflationAdjust Cashflows Dates 0 = Cashflows := by
    rw [inflationAdjust]
    have hmap : (Cashflows.zip Dates).map (fun p : ℝ × ℝ =>
        let Years := pydays (p.2 - Dates.headI) / 365.25
        if p.1 < 0 then p.1 * (1 + 0) ^ Years else p.1 / (1 + 0) ^ Years)
        = (Cashflows.zip Dates).map Prod.fst := by
      refine List.map_congr_left (fun p _ => ?_)
      simp [Real.one_rpow]
    rw [hmap, List.map_fst_zip _ _ (le_of_eq hlen)]
  exact ⟨hid, by rw [CalculateInflationAdjustedReturns, hid]⟩

/-- Witness for C6 at a concrete series. -/
theorem inflation_zero_reproduces_nominal_xirr_witness :
    inflationAdjust [(-1000 : ℝ), 1100] [0, 365] 0 = [(-1000 : ℝ), 1100]
    ∧ CalculateInflationAdjustedReturns [(-1000 : ℝ), 1100] [0, 365] 0
        = CalculateReturns [(-1000 : ℝ), 1100] [0, 365] 200 (1e-6) :=
  inflation_zero_reproduces_nominal_xirr [(-1000 : ℝ), 1100] [0, 365] rfl

/-! ## Compounding simulation: `CalculateFutureValue` -/

/-- The annual step-up rule shared by the three monthly loops: at the close
of `Month` (0-based), when `(Month+1) % 12 == 0` and `Month < TotalMonths - 1`,
the running SIP amount is multiplied by `g`. -/
def stepSip (g : ℝ) (TotalMonths Month : ℕ) (sip : ℝ) : ℝ :=
  if (Month + 1) % 12 = 0 ∧ Month < TotalMonths - 1 then sip * g else sip

/-- One iteration of the `CalculateFutureValue` loop on the state
`(FutureValue, MonthlySip)`: add `MonthlySip * (1+MonthlyRate)^MonthsRemaining`
and apply the step-up rule. -/
def fvStep (q g : ℝ) (TotalMonths : ℕ) (s : ℝ × ℝ) (Month : ℕ) : ℝ × ℝ :=
  (s.1 + s.2 * q ^ (TotalMonths - Month), stepSip g TotalMonths Month s.2)

/-- `CalculateFutureValue(MonthlyAmount, YearlyReturnPercent, InvestmentYears,
YearlyIncreasePercent, FundExpensePercent, TaxImpactPercent, StartingLumpsum)`. -/
def CalculateFutureValue (MonthlyAmount YearlyReturnPercent InvestmentYears
    YearlyIncreasePercent FundExpensePercent TaxImpactPercent
    StartingLumpsum : ℝ) : ℝ :=
  let NetReturn := YearlyReturnPercent - FundExpensePercent - TaxImpactPercent
  if NetReturn ≤ 0 then 0
  else
    let AnnualRate := NetReturn / 100
    let MonthlyRate := (1 + AnnualRate) ^ ((1 : ℝ) / 12) - 1
    let TotalMonths : ℤ := pyInt (InvestmentYears * 12)
    if TotalMonths = 0 then StartingLumpsum
    else
      let q := 1 + MonthlyRate
      ((List.range TotalMonths.toNat).foldl
        (fvStep q (1 + YearlyIncreasePercent / 100) TotalMonths.toNat)
        (StartingLumpsum * q ^ TotalMonths, MonthlyAmount)).1

/-! ### Characterization of the monthly loops -/

/-- Under the step-up rule, a SIP amount of the closed form
`A * g ^ (min k (N-1) / 12)` at iteration `k` steps to the same closed form
at `k+1`: the exponent counts the year-closes at positive multiples of 12
strictly before the final month of the horizon. -/
theorem stepSip_pow (g : ℝ) (N k : ℕ) (hk : k + 1 ≤ N) (A : ℝ) :
    stepSip g N k (A * g ^ (min k (N - 1) / 12))
      = A * g ^ (min (k + 1) (N - 1) / 12) := by
  have hmin : min k (N - 1) = k := by omega
  rw [stepSip, hmin]
  by_cases hc : (k + 1) % 12 = 0 ∧ k < N - 1
  · rw [if_pos hc]
    have he : min (k + 1) (N - 1) / 12 = k / 12 + 1 := by omega
    rw [he, pow_succ, mul_assoc]
  · rw [if_neg hc]
    have he : min (k + 1) (N - 1) / 12 = k / 12 := by omega
    rw [he]

/-- Closed form of the `CalculateFutureValue` loop: after `k ≤ N` iterations
the accumulated future value is `F + Σ_{m<k} A g^(m/12) q^(N-m)` and the
running SIP is `A g^(min k (N-1) / 12)`. -/
theorem fv_fold_spec (q g A F : ℝ) (N : ℕ) :
    ∀ k, k ≤ N →
      (List.range k).foldl (fvStep q g N) (F, A)
        = (F + ∑ m ∈ range k, A * g ^ (m / 12) * q ^ (N - m),
            A * g ^ (min k (N - 1) / 12)) := by
  intro k
  induction k with
  | zero => intro _; simp
  | succ k ih =>
    intro hk
    have hk' : k ≤ N := le_of_lt (Nat.lt_of_succ_le hk)
    rw [List.range_succ, List.foldl_append, List.foldl_cons, List.foldl_nil,
      ih hk']
    have hmin : min k (N - 1) = k := by omega
    rw [fvStep]
    simp only [Prod.mk.injEq]
    refine ⟨?_, ?_⟩
    · rw [Finset.sum_range_succ, add_assoc, hmin]
    · exact stepSip_pow g N k hk A

/-- Closed form of `CalculateFutureValue` as a function of the number of
months: `pyRound`-free arithmetic used by the monotonicity analysis. -/
def fvClosedN (q g A L : ℝ) (N : ℕ) : ℝ :=
  if N = 0 then L
  else L * q ^ N + ∑ m ∈ range N, A * g ^ (m / 12) * q ^ (N - m)

/-- For a positive net return and positive duration, `CalculateFutureValue`
equals its closed form at `q = (1 + net/100)^(1/12)`, `g = 1 + inc/100`,
`N = int(years * 12)`. -/
theorem cfv_closed_form (A ret yrs inc fx tx L : ℝ)
    (hnet : 0 < ret - fx - tx) (hy : 0 < yrs) :
    CalculateFutureValue A ret yrs inc fx tx L
      = fvClosedN ((1 + (ret - fx - tx) / 100) ^ ((1 : ℝ) / 12))
          (1 + inc / 100) A L (pyInt (yrs * 12)).toNat := by
  have hTM : 0 ≤ pyInt (yrs * 12) := by
    rw [pyInt, if_pos (by positivity)]
    exact Int.floor_nonneg.mpr (by positivity)
  simp only [CalculateFutureValue, not_le.mpr hnet, if_false]
  set q : ℝ := (1 + (ret - fx - tx) / 100) ^ ((1 : ℝ) / 12) with hq
  have hq1 : 1 + ((1 + (ret - fx - tx) / 100) ^ ((1 : ℝ) / 12) - 1) = q := by
    rw [hq]; ring
  by_cases h0 : pyInt (yrs * 12) = 0
  · rw [if_pos h0, fvClosedN, h0]
    simp
  · rw [if_neg h0]
    have hpos : 0 < (pyInt (yrs * 12)).toNat := by omega
    rw [hq1, fv_fold_spec _ _ _ _ _ _ (le_refl _), fvClosedN,
      if_neg (Nat.pos_iff_ne_zero.mp hpos)]
    have hz : q ^ pyInt (yrs * 12) = q ^ (pyInt (yrs * 12)).toNat := by
      conv_lhs => rw [← Int.toNat_of_nonneg hTM]
      rw [zpow_natCast]
    rw [hz]

/-! ### Monotonicity of the closed form -/

theorem fvClosedN_nonneg {q g A L : ℝ} (hq : 0 ≤ q) (hg : 0 ≤ g)
    (hA : 0 ≤ A) (hL : 0 ≤ L) (N : ℕ) : 0 ≤ fvClosedN q g A L N := by
  rw [fvClosedN]
  split
  · exact hL
  · have h1 : 0 ≤ L * q ^ N := by positivity
    have h2 : 0 ≤ ∑ m ∈ range N, A * g ^ (m / 12) * q ^ (N - m) :=
      Finset.sum_nonneg (fun m _ => by positivity)
    linarith

theorem fvClosedN_succ (q g A L : ℝ) (N : ℕ) :
    fvClosedN q g A L (N + 1)
      = q * fvClosedN q g A L N + A * g ^ (N / 12) * q := by
  by_cases h0 : N = 0
  · subst h0
    simp [fvClosedN]
    ring
  · rw [fvClosedN, fvClosedN, if_neg (Nat.succ_ne_zero N), if_neg h0,
      Finset.sum_range_succ]
    have hsum : ∑ m ∈ range N, A * g ^ (m / 12) * q ^ (N + 1 - m)
        = q * ∑ m ∈ range N, A * g ^ (m / 12) * q ^ (N - m) := by
      rw [Finset.mul_sum]
      refine Finset.sum_congr rfl (fun m hm => ?_)
      have hm' : m < N := Finset.mem_range.mp hm
      have he : N + 1 - m = (N - m) + 1 := by omega
      rw [he, pow_succ]
      ring
    rw [hsum]
    have he2 : N + 1 - N = 1 := by omega
    rw [he2, pow_one]
    ring

theorem fvClosedN_mono_months {q g A L : ℝ} (hq1 : 1 ≤ q) (hg : 0 ≤ g)
    (hA : 0 ≤ A) (hL : 0 ≤ L) : Monotone (fvClosedN q g A L) := by
  have hq0 : 0 ≤ q := le_trans zero_le_one hq1
  refine monotone_nat_of_le_succ (fun N => ?_)
  rw [fvClosedN_succ]
  have h1 : fvClosedN q g A L N ≤ q * fvClosedN q g A L N :=
    le_mul_of_one_le_left (fvClosedN_nonneg hq0 hg hA hL N) hq1
  have h2 : 0 ≤ A * g ^ (N / 12) * q := by positivity
  linarith

theorem fvClosedN_mono_amount {q g A A2 L : ℝ} (hq : 0 ≤ q) (hg : 0 ≤ g)
    (hAA : A ≤ A2) (N : ℕ) : fvClosedN q g A L N ≤ fvClosedN q g A2 L N := by
  rw [fvClosedN, fvClosedN]
  split
  · exact le_refl L
  · refine add_le_add_left (Finset.sum_le_sum (fun m _ => ?_)) _
    have : 0 ≤ g ^ (m / 12) * q ^ (N - m) := by positivity
    calc A * g ^ (m / 12) * q ^ (N - m)
        = A * (g ^ (m / 12) * q ^ (N - m)) := by ring
      _ ≤ A2 * (g ^ (m / 12) * q ^ (N - m)) := mul_le_mul_of_nonneg_right hAA this
      _ = A2 * g ^ (m / 12) * q ^ (N - m) := by ring

theorem fvClosedN_mono_rate {q q2 g A L : ℝ} (hq : 0 ≤ q) (hqq : q ≤ q2)
    (hg : 0 ≤ g) (hA : 0 ≤ A) (hL : 0 ≤ L) (N : ℕ) :
    fvClosedN q g A L N ≤ fvClosedN q2 g A L N := by
  rw [fvClosedN, fvClosedN]
  split
  · exact le_refl L
  · refine add_le_add ?_ (Finset.sum_le_sum (fun m _ => ?_))
    · exact mul_le_mul_of_nonneg_left (pow_le_pow_left₀ hq hqq N) hL
    · have hc : 0 ≤ A * g ^ (m / 12) := by positivity
      calc A * g ^ (m / 12) * q ^ (N - m)
          ≤ A * g ^ (m / 12) * q2 ^ (N - m) :=
            mul_le_mul_of_nonneg_left (pow_le_pow_left₀ hq hqq _) hc
        _ = A * g ^ (m / 12) * q2 ^ (N - m) := rfl

/-- `1 ≤ x^y` for a base `≥ 1` and a nonnegative real exponent. -/
theorem one_le_rpow_of_one_le {x : ℝ} (hx : 1 ≤ x) {y : ℝ} (hy : 0 ≤ y) :
    1 ≤ x ^ y := by
  calc (1 : ℝ) = (1 : ℝ) ^ y := (Real.one_rpow y).symm
    _ ≤ x ^ y := Real.rpow_le_rpow zero_le_one hx hy

/-- **C2 (counterexample).** Monotonicity of `CalculateFutureValue` in the
monthly contribution fails as universally stated: with a step-up of `-1100%`
(net return `12% > 0`, two years, no lumpsum) the stepped contribution turns
negative in year two and a larger contribution yields a strictly smaller
final balance: the value at contribution `1` is below the value at `0`. -/
theorem cfv_contribution_monotonicity_fails :
    CalculateFutureValue 1 12 2 (-1100) 0 0 0
      < CalculateFutureValue 0 12 2 (-1100) 0 0 0 := by
  have h24 : (pyInt ((2 : ℝ) * 12)).toNat = 24 := by
    have h : pyInt ((2 : ℝ) * 12) = 24 := by norm_num [pyInt]
    rw [h]
    rfl
  rw [cfv_closed_form 1 12 2 (-1100) 0 0 0 (by norm_num) (by norm_num),
    cfv_closed_form 0 12 2 (-1100) 0 0 0 (by norm_num) (by norm_num), h24]
  set q : ℝ := (1 + (12 - 0 - 0) / 100) ^ ((1 : ℝ) / 12) with hqdef
  have hqpos : 0 < q := Real.rpow_pos_of_pos (by norm_num) _
  have hq12 : q ^ (12 : ℕ) = 28 / 25 := by
    rw [hqdef, ← Real.rpow_natCast ((1 + (12 - 0 - 0) / 100) ^ ((1 : ℝ) / 12)) 12,
      ← Real.rpow_mul (by norm_num)]
    norm_num
  have hg : (1 : ℝ) + (-1100) / 100 = -10 := by norm_num
  rw [hg, fvClosedN, fvClosedN]
  norm_num
  have hsplit : ∑ m ∈ range 24, (-10 : ℝ) ^ (m / 12) * q ^ (24 - m)
      = ∑ m ∈ range 12, ((-10 : ℝ) ^ (m / 12) * q ^ (24 - m))
        + ∑ m ∈ range 12, ((-10 : ℝ) ^ ((12 + m) / 12) * q ^ (24 - (12 + m))) := by
    have h2412 : (24 : ℕ) = 12 + 12 := by norm_num
    rw [h2412, Finset.sum_range_add]
  rw [hsplit]
  have h1 : ∑ m ∈ range 12, ((-10 : ℝ) ^ (m / 12) * q ^ (24 - m))
      = ∑ m ∈ range 12, (28 / 25) * q ^ (12 - m) := by
    refine Finset.sum_congr rfl (fun m hm => ?_)
    have hm' : m < 12 := Finset.mem_range.mp hm
    have hd : m / 12 = 0 := by omega
    have he : 24 - m = 12 + (12 - m) := by omega
    rw [hd, pow_zero, one_mul, he, pow_add, hq12]
  have h2 : ∑ m ∈ range 12, ((-10 : ℝ) ^ ((12 + m) / 12) * q ^ (24 - (12 + m)))
      = ∑ m ∈ range 12, (-10 : ℝ) * q ^ (12 - m) := by
    refine Finset.sum_congr rfl (fun m hm => ?_)
    have hm' : m < 12 := Finset.mem_range.mp hm
    have hd : (12 + m) / 12 = 1 := by omega
    have he : 24 - (12 + m) = 12 - m := by omega
    rw [hd, pow_one, he]
  rw [h1, h2, ← Finset.sum_add_distrib]
  have hneg : ∀ m ∈ range 12,
      (28 / 25) * q ^ (12 - m) + (-10 : ℝ) * q ^ (12 - m) < 0 := by
    intro m _
    have hp : 0 < q ^ (12 - m) := pow_pos hqpos _
    nlinarith
  calc ∑ m ∈ range 12, ((28 / 25) * q ^ (12 - m) + (-10 : ℝ) * q ^ (12 - m))
      < ∑ m ∈ range 12, (0 : ℝ) :=
        Finset.sum_lt_sum_of_nonempty (by norm_num) hneg
    _ = 0 := Finset.sum_const_zero

/-- **C2 (amended).** Over valid parameter sets — positive net return,
positive duration, non-negative contribution and lumpsum, and a step-up of
at least `-100%` so that the stepped contribution multiplier stays
non-negative — the final balance of `CalculateFutureValue` is monotonically
non-decreasing in the monthly contribution, in the duration in years, and in
the net return rate, each with the other parameters held fixed. -/
theorem cfv_monotone_on_valid_params
    (ret ret2 fx tx inc A A2 yrs yrs2 L : ℝ)
    (hnet : 0 < ret - fx - tx) (hg : 0 ≤ 1 + inc / 100)
    (hA : 0 ≤ A) (hL : 0 ≤ L) (hy : 0 < yrs) :
    (A ≤ A2 → CalculateFutureValue A ret yrs inc fx tx L
        ≤ CalculateFutureValue A2 ret yrs inc fx tx L)
    ∧ (yrs ≤ yrs2 → CalculateFutureValue A ret yrs inc fx tx L
        ≤ CalculateFutureValue A ret yrs2 inc fx tx L)
    ∧ (ret ≤ ret2 → CalculateFutureValue A ret yrs inc fx tx L
        ≤ CalculateFutureValue A ret2 yrs inc fx tx L) := by
  have hbase : (0 : ℝ) ≤ 1 + (ret - fx - tx) / 100 := by linarith
  have hq0 : 0 ≤ (1 + (ret - fx - tx) / 100) ^ ((1 : ℝ) / 12) :=
    Real.rpow_nonneg hbase _
  have hq1 : 1 ≤ (1 + (ret - fx - tx) / 100) ^ ((1 : ℝ) / 12) :=
    one_le_rpow_of_one_le (by linarith) (by norm_num)
  refine ⟨?_, ?_, ?_⟩
  · intro hAA
    rw [cfv_closed_form A ret yrs inc fx tx L hnet hy,
      cfv_closed_form A2 ret yrs inc fx tx L hnet hy]
    exact fvClosedN_mono_amount hq0 hg hAA _
  · intro hyy
    have hy2 : 0 < yrs2 := lt_of_lt_of_le hy hyy
    rw [cfv_closed_form A ret yrs inc fx tx L hnet hy,
      cfv_closed_form A ret yrs2 inc fx tx L hnet hy2]
    have hNN : (pyInt (yrs * 12)).toNat ≤ (pyInt (yrs2 * 12)).toNat := by
      have h1 : pyInt (yrs * 12) ≤ pyInt (yrs2 * 12) := by
        rw [pyInt, pyInt, if_pos (by positivity), if_pos (by positivity)]
        exact Int.floor_le_floor (by nlinarith)
      omega
    exact fvClosedN_mono_months hq1 hg hA hL hNN
  · intro hrr
    have hnet2 : 0 < ret2 - fx - tx := by linarith
    rw [cfv_closed_form A ret yrs inc fx tx L hnet hy,
      cfv_closed_form A ret2 yrs inc fx tx L hnet2 hy]
    have hqq : (1 + (ret - fx - tx) / 100) ^ ((1 : ℝ) / 12)
        ≤ (1 + (ret2 - fx - tx) / 100) ^ ((1 : ℝ) / 12) :=
      Real.rpow_le_rpow hbase (by linarith) (by norm_num)
    exact fvClosedN_mono_rate hq0 hqq hg hA hL _

/-- Witness for the amended C2 at concrete valid parameters. -/
theorem cfv_monotone_on_valid_params_witness :
    (CalculateFutureValue 100 12 10 10 0.5 0 5000
        ≤ CalculateFutureValue 200 12 10 10 0.5 0 5000)
    ∧ (CalculateFutureValue 100 12 10 10 0.5 0 5000
        ≤ CalculateFutureValue 100 12 15 10 0.5 0 5000)
    ∧ (CalculateFutureValue 100 12 10 10 0.5 0 5000
        ≤ CalculateFutureValue 100 14 10 10 0.5 0 5000) := by
  have h := cfv_monotone_on_valid_params 12 14 0.5 0 10 100 200 10 15 5000
    (by norm_num) (by norm_num) (by norm_num) (by norm_num) (by norm_num)
  exact ⟨h.1 (by norm_num), h.2.1 (by norm_num), h.2.2 (by norm_num)⟩

/-! ## The summary pass of `RunSipCalculation` -/

/-- State of the final-corpus summary loop of `RunSipCalculation`:
`FinalCorpus`, `TotalAmountInvested`, `TotalStepUpAmount`, `MonthlySip`. -/
structure SState where
  fv : ℝ
  invested : ℝ
  stepUpTot : ℝ
  sip : ℝ

/-- One iteration of the summary loop of `RunSipCalculation`. -/
def summaryStep (q StepUpMultiplier : ℝ) (TotalMonths : ℕ) (s : SState)
    (Month : ℕ) : SState :=
  let MonthsRemaining := TotalMonths - Month
  let fv := s.fv + s.sip * q ^ MonthsRemaining
  let invested := s.invested + s.sip
  if (Month + 1) % 12 = 0 ∧ Month < TotalMonths - 1 then
    ⟨fv, invested, s.stepUpTot + s.sip * StepUpMultiplier * 12,
      s.sip * (1 + StepUpMultiplier)⟩
  else ⟨fv, invested, s.stepUpTot, s.sip⟩

theorem summaryStep_fv (q sM : ℝ) (N : ℕ) (s : SState) (m : ℕ) :
    (summaryStep q sM N s m).fv = s.fv + s.sip * q ^ (N - m) := by
  rw [summaryStep]
  split <;> rfl

theorem summaryStep_sip (q sM : ℝ) (N : ℕ) (s : SState) (m : ℕ) :
    (summaryStep q sM N s m).sip = stepSip (1 + sM) N m s.sip := by
  rw [summaryStep, stepSip]
  split <;> rfl

/-- Closed form of the summary loop of `RunSipCalculation`: the accumulated
final corpus and the running SIP after `k ≤ N` iterations. -/
theorem summary_fold_spec (q sM A F I S : ℝ) (N : ℕ) :
    ∀ k, k ≤ N →
      ((List.range k).foldl (summaryStep q sM N) ⟨F, I, S, A⟩).fv
          = F + ∑ m ∈ range k, A * (1 + sM) ^ (m / 12) * q ^ (N - m)
      ∧ ((List.range k).foldl (summaryStep q sM N) ⟨F, I, S, A⟩).sip
          = A * (1 + sM) ^ (min k (N - 1) / 12) := by
  intro k
  induction k with
  | zero => intro _; simp
  | succ k ih =>
    intro hk
    have hk' : k ≤ N := le_of_lt (Nat.lt_of_succ_le hk)
    obtain ⟨ihfv, ihsip⟩ := ih hk'
    rw [List.range_succ, List.foldl_append, List.foldl_cons, List.foldl_nil]
    refine ⟨?_, ?_⟩
    · rw [summaryStep_fv, ihfv, ihsip, Finset.sum_range_succ, add_assoc]
      have hmin : min k (N - 1) = k := by omega
      rw [hmin]
    · rw [summaryStep_sip, ihsip]
      exact stepSip_pow (1 + sM) N k hk A

/-- **C7.** In every simulation run over `TotalMonths = N` months (both the
`CalculateFutureValue` loop and the summary loop of `RunSipCalculation`),
the running contribution used in month `k` (0-based) equals the initial
contribution times `(1 + stepUpPercent/100)` raised to `min k (N-1) / 12`:
the multiplication fires exactly at the close of each month `m` that is a
positive multiple of 12 with `m < N`, compounds annually, and affects only
months after `m`. -/
theorem stepup_applies_at_year_closes (q StepUpPercent A F I S : ℝ)
    (N k : ℕ) (hk : k ≤ N) :
    ((List.range k).foldl (fvStep q (1 + StepUpPercent / 100) N) (F, A)).2
        = A * (1 + StepUpPercent / 100) ^ (min k (N - 1) / 12)
    ∧ ((List.range k).foldl
          (summaryStep q (StepUpPercent / 100) N) ⟨F, I, S, A⟩).sip
        = A * (1 + StepUpPercent / 100) ^ (min k (N - 1) / 12) := by
  refine ⟨?_, (summary_fold_spec q (StepUpPercent / 100) A F I S N k hk).2⟩
  rw [fv_fold_spec q (1 + StepUpPercent / 100) A F N k hk]

/-- Witness for C7: after 24 months of a 24-month horizon with a 100%
step-up, the running SIP has been doubled exactly once (the year-two close
being the final month is suppressed). -/
theorem stepup_applies_at_year_closes_witness :
    ((List.range 24).foldl (fvStep 5 (1 + 100 / 100) 24) (0, 3)).2
        = 3 * (1 + 100 / 100) ^ (min 24 (24 - 1) / 12)
    ∧ ((List.range 24).foldl (summaryStep 5 (100 / 100) 24) ⟨0, 0, 0, 3⟩).sip
        = 3 * (1 + 100 / 100) ^ (min 24 (24 - 1) / 12) :=
  stepup_applies_at_year_closes 5 100 3 0 0 0 24 24 (by norm_num)

/-! ## Goal solvers: `FindRequiredMonthlySip` and `FindRequiredYears` -/

/-- The shared bisection loop shape of the two goal solvers.  The last
argument carries the most recently computed midpoint, which is the value
returned (before rounding) when the fixed iteration budget runs out; there
is no early exit. -/
def bisectSearchLoop (f : ℝ → ℝ) (target : ℝ) : ℕ → ℝ → ℝ → ℝ → ℝ
  | 0, _, _, lastMid => lastMid
  | n + 1, Low, High, _ =>
    let Mid := (Low + High) / 2
    if f Mid < target then bisectSearchLoop f target n Mid High Mid
    else bisectSearchLoop f target n Low Mid Mid

/-- `FindRequiredMonthlySip(TargetAmount, ...)`: 100 bisection iterations on
`[0, 2*TargetAmount]` against `CalculateFutureValue`, result rounded to a
whole currency unit. -/
def FindRequiredMonthlySip (TargetAmount YearlyReturnPercent InvestmentYears
    YearlyIncreasePercent FundExpensePercent TaxImpactPercent
    StartingLumpsum : ℝ) : ℝ :=
  pyRound0 (bisectSearchLoop
    (fun Mid => CalculateFutureValue Mid YearlyReturnPercent InvestmentYears
      YearlyIncreasePercent FundExpensePercent TaxImpactPercent
      StartingLumpsum)
    TargetAmount 100 0 (TargetAmount * 2) 0)

/-- `FindRequiredYears(TargetAmount, MonthlyAmount, ...)`: 100 bisection
iterations on `[0.1, 80]` years, result rounded to one decimal. -/
def FindRequiredYears (TargetAmount MonthlyAmount YearlyReturnPercent
    YearlyIncreasePercent FundExpensePercent TaxImpactPercent
    StartingLumpsum : ℝ) : ℝ :=
  pyRound1 (bisectSearchLoop
    (fun Mid => CalculateFutureValue MonthlyAmount YearlyReturnPercent Mid
      YearlyIncreasePercent FundExpensePercent TaxImpactPercent
      StartingLumpsum)
    TargetAmount 100 0.1 80 0)

/-- One bracket update of the goal-solver bisection, as a function on
bracket pairs: the midpoint becomes the new lower bound exactly when the
simulated final balance at the midpoint is strictly below the target. -/
def bisectStep (f : ℝ → ℝ) (target : ℝ) (p : ℝ × ℝ) : ℝ × ℝ :=
  let Mid := (p.1 + p.2) / 2
  if f Mid < target then (Mid, p.2) else (p.1, Mid)

/-- Midpoint of a bracket pair. -/
def midOf (p : ℝ × ℝ) : ℝ := (p.1 + p.2) / 2

/-- With fuel `n+1`, the fixed-budget bisection loop returns the midpoint of
the bracket produced by `n` bracket updates — i.e. the `(n+1)`-st midpoint. -/
theorem bisectSearchLoop_eq_iterate (f : ℝ → ℝ) (T : ℝ) :
    ∀ (n : ℕ) (Low High lastMid : ℝ),
      bisectSearchLoop f T (n + 1) Low High lastMid
        = midOf ((bisectStep f T)^[n] (Low, High)) := by
  intro n
  induction n with
  | zero =>
    intro Low High lastMid
    rw [bisectSearchLoop]
    by_cases h : f ((Low + High) / 2) < T
    · rw [if_pos h]; rfl
    · rw [if_neg h]; rfl
  | succ n ih =>
    intro Low High lastMid
    rw [bisectSearchLoop, Function.iterate_succ_apply]
    by_cases h : f ((Low + High) / 2) < T
    · rw [if_pos h, ih]
      have hstep : bisectStep f T (Low, High) = ((Low + High) / 2, High) := by
        rw [bisectStep]
        exact if_pos h
      rw [hstep]
    · rw [if_neg h, ih]
      have hstep : bisectStep f T (Low, High) = (Low, (Low + High) / 2) := by
        rw [bisectStep]
        exact if_neg h
      rw [hstep]

/-- **C4.** `FindRequiredMonthlySip` performs exactly 100 bisection
iterations on the bracket `[0, 2*TargetAmount]` with no early exit: its
result is the 100th midpoint — the midpoint after 99 bracket updates —
rounded to a whole currency unit; and each update makes the midpoint the
new lower bound exactly when `CalculateFutureValue` at the midpoint is
strictly below the target. -/
theorem findRequiredMonthlySip_is_full_bisection
    (T ret yrs inc fx tx L : ℝ) :
    FindRequiredMonthlySip T ret yrs inc fx tx L
      = pyRound0 (midOf ((bisectStep
          (fun Mid => CalculateFutureValue Mid ret yrs inc fx tx L)
          T)^[99] (0, T * 2)))
    ∧ ∀ (f : ℝ → ℝ) (Low High : ℝ),
        bisectStep f T (Low, High)
          = if f ((Low + High) / 2) < T then ((Low + High) / 2, High)
            else (Low, (Low + High) / 2) := by
  constructor
  · rw [FindRequiredMonthlySip,
      bisectSearchLoop_eq_iterate _ T 99 0 (T * 2) 0]
  · intro f Low High
    rfl

/-- With an objective that is constantly zero, the fixed-budget bisection
marches the bracket monotonically toward one end and the final midpoint has
an explicit closed form. -/
theorem bisectSearchLoop_const_zero (T : ℝ) :
    ∀ (n : ℕ) (Low High lastMid : ℝ),
      bisectSearchLoop (fun _ => (0 : ℝ)) T (n + 1) Low High lastMid
        = if 0 < T then High - (High - Low) / 2 ^ (n + 1)
          else Low + (High - Low) / 2 ^ (n + 1) := by
  intro n
  induction n with
  | zero =>
    intro Low High lastMid
    rw [bisectSearchLoop]
    by_cases h : (0 : ℝ) < T
    · rw [if_pos h, if_pos h, bisectSearchLoop]
      ring
    · rw [if_neg h, if_neg h, bisectSearchLoop]
      ring
  | succ n ih =>
    intro Low High lastMid
    rw [bisectSearchLoop]
    by_cases h : (0 : ℝ) < T
    · rw [if_pos h, ih, if_pos h, if_pos h]
      field_simp
      ring
    · rw [if_neg h, ih, if_neg h, if_neg h]
      field_simp
      ring

/-- **C10.** When the net return `YearlyReturnPercent - FundExpensePercent -
TaxImpactPercent` is non-positive, `CalculateFutureValue` returns `0.0`
whatever the contribution, duration or (even positive) lumpsum, and the two
goal solvers run their full budget with every midpoint evaluation yielding
`0`, completing with the explicit degenerate midpoints below. -/
theorem nonpositive_net_return_yields_zero
    (A ret yrs inc fx tx L T : ℝ) (hnet : ret - fx - tx ≤ 0) :
    CalculateFutureValue A ret yrs inc fx tx L = 0
    ∧ FindRequiredMonthlySip T ret yrs inc fx tx L
        = pyRound0 (if 0 < T then T * 2 - T * 2 / 2 ^ 100 else T * 2 / 2 ^ 100)
    ∧ FindRequiredYears T A ret inc fx tx L
        = pyRound1 (if 0 < T then 80 - 79.9 / 2 ^ 100 else 0.1 + 79.9 / 2 ^ 100) := by
  have hzero : ∀ (x y : ℝ), CalculateFutureValue x ret y inc fx tx L = 0 := by
    intro x y
    rw [CalculateFutureValue]
    simp only [hnet, if_pos]
  refine ⟨hzero A yrs, ?_, ?_⟩
  · rw [FindRequiredMonthlySip]
    have hf : (fun Mid => CalculateFutureValue Mid ret yrs inc fx tx L)
        = fun _ => (0 : ℝ) := funext (fun Mid => hzero Mid yrs)
    rw [hf, bisectSearchLoop_const_zero T 99 0 (T * 2) 0]
    congr 1
    split_ifs <;> ring
  · rw [FindRequiredYears]
    have hf : (fun Mid => CalculateFutureValue A ret Mid inc fx tx L)
        = fun _ => (0 : ℝ) := funext (fun Mid => hzero A Mid)
    rw [hf, bisectSearchLoop_const_zero T 99 0.1 80 0]
    congr 1
    split_ifs <;> norm_num

/-- Witness for C10 at a concrete input with net return exactly zero. -/
theorem nonpositive_net_return_yields_zero_witness :
    CalculateFutureValue 7 5 3 10 3 2 50 = 0
    ∧ FindRequiredMonthlySip 100 5 3 10 3 2 50
        = pyRound0 (if (0 : ℝ) < 100 then 100 * 2 - 100 * 2 / 2 ^ 100
            else 100 * 2 / 2 ^ 100)
    ∧ FindRequiredYears 100 7 5 10 3 2 50
        = pyRound1 (if (0 : ℝ) < 100 then 80 - 79.9 / 2 ^ 100
            else 0.1 + 79.9 / 2 ^ 100) :=
  nonpositive_net_return_yields_zero 7 5 3 10 3 2 50 100 (by norm_num)

/-! ## Retirement drawdown: `SimulateRetirementWithdrawals` -/

/-- One row of the per-year retirement table (fields rounded as in the
source dictionary). -/
structure RetRow where
  year : ℕ
  withdrawalAmount : ℝ
  corpusAtYearStart : ℝ
  corpusAtYearEnd : ℝ
  withdrawalPercentOfCorpus : ℝ

/-- The year-by-year loop of `SimulateRetirementWithdrawals`.  The `best`
argument carries `YearsMoneyLasts`: it is advanced to the current year when
the end-of-year corpus is still positive, and the loop breaks (returning the
row list so far and the last recorded value) the first year it is not. -/
def retLoop (FirstYearWithdrawal Inflation InvestmentReturn : ℝ) :
    ℕ → ℕ → ℝ → ℕ → List RetRow × ℕ
  | 0, _, _, best => ([], best)
  | n + 1, Year, RemainingCorpus, best =>
    let AnnualWithdrawal := FirstYearWithdrawal * (1 + Inflation) ^ (Year - 1)
    let CorpusStart := RemainingCorpus
    let CorpusEnd := RemainingCorpus * (1 + InvestmentReturn) - AnnualWithdrawal
    let row : RetRow := ⟨Year, pyRound0 AnnualWithdrawal, pyRound0 CorpusStart,
      pyRound0 (max CorpusEnd 0),
      if 0 < CorpusStart then pyRound2 (AnnualWithdrawal / CorpusStart * 100)
      else 0⟩
    if 0 < CorpusEnd then
      let rest := retLoop FirstYearWithdrawal Inflation InvestmentReturn n
        (Year + 1) CorpusEnd Year
      (row :: rest.1, rest.2)
    else ([row], best)

/-- `SimulateRetirementWithdrawals(RetirementCorpus, YearlyWithdrawalPercent,
InflationPercent, ReturnAfterRetirementPercent, MaxYears)`. -/
def SimulateRetirementWithdrawals (RetirementCorpus YearlyWithdrawalPercent
    InflationPercent ReturnAfterRetirementPercent : ℝ) (MaxYears : ℕ) :
    List RetRow × ℕ :=
  let WithdrawalRate := YearlyWithdrawalPercent / 100
  let Inflation := InflationPercent / 100
  let InvestmentReturn := ReturnAfterRetirementPercent / 100
  let FirstYearWithdrawal := RetirementCorpus * WithdrawalRate
  retLoop FirstYearWithdrawal Inflation InvestmentReturn MaxYears 1
    RetirementCorpus 0

/-- The end-of-year-`k` corpus of the drawdown recurrence: the corpus grows
by the return rate, then the inflation-indexed withdrawal
`FirstYearWithdrawal * (1+Inflation)^(k-1)` for year `k` is subtracted. -/
def corpusSeq (FirstYearWithdrawal Inflation InvestmentReturn c0 : ℝ) :
    ℕ → ℝ
  | 0 => c0
  | k + 1 => corpusSeq FirstYearWithdrawal Inflation InvestmentReturn c0 k
      * (1 + InvestmentReturn) - FirstYearWithdrawal * (1 + Inflation) ^ k

/-- The drawdown corpus recurrence expressed over the percentage-level
arguments of `SimulateRetirementWithdrawals`. -/
def retCorpusSeq (RetirementCorpus YearlyWithdrawalPercent InflationPercent
    ReturnAfterRetirementPercent : ℝ) : ℕ → ℝ :=
  corpusSeq (RetirementCorpus * (YearlyWithdrawalPercent / 100))
    (InflationPercent / 100) (ReturnAfterRetirementPercent / 100)
    RetirementCorpus

theorem takeWhile_map_succ (p : ℕ → Bool) (l : List ℕ) :
    (l.map Nat.succ).takeWhile p
      = (l.takeWhile (fun j => p (j + 1))).map Nat.succ := by
  induction l with
  | nil => rfl
  | cons a l ih =>
    rw [List.map_cons, List.takeWhile_cons, List.takeWhile_cons]
    by_cases h : p (a + 1)
    · rw [if_pos h, if_pos (show p a.succ = true from h), ih, List.map_cons]
    · rw [if_neg h, if_neg (show ¬p a.succ = true from h)]
      rfl

/-- Generalized invariant of `retLoop`: starting in year `k+1` with the
end-of-year-`k` corpus, the returned `YearsMoneyLasts` is the last year of
the maximal run of positive end-of-year corpora (or the inherited `best`
when year `k+1` fails at once), and one row is emitted per simulated year,
including the failing one. -/
theorem retLoop_spec (fyw infl r c0 : ℝ) :
    ∀ (n k best : ℕ),
      (retLoop fyw infl r n (k + 1) (corpusSeq fyw infl r c0 k) best).2
        = (if ((List.range n).takeWhile
              (fun j => decide (0 < corpusSeq fyw infl r c0 (k + j + 1)))).length = 0
           then best
           else k + ((List.range n).takeWhile
              (fun j => decide (0 < corpusSeq fyw infl r c0 (k + j + 1)))).length)
      ∧ (retLoop fyw infl r n (k + 1) (corpusSeq fyw infl r c0 k) best).1.length
        = min n (((List.range n).takeWhile
            (fun j => decide (0 < corpusSeq fyw infl r c0 (k + j + 1)))).length + 1) := by
  intro n
  induction n with
  | zero =>
    intro k best
    simp [retLoop]
  | succ n ih =>
    intro k best
    rw [retLoop]
    have hce : corpusSeq fyw infl r c0 k * (1 + r)
        - fyw * (1 + infl) ^ (k + 1 - 1) = corpusSeq fyw infl r c0 (k + 1) := by
      rw [corpusSeq]
      norm_num
    rw [hce]
    have hrange : List.range (n + 1) = 0 :: (List.range n).map Nat.succ :=
      List.range_succ_eq_map n
    rw [hrange, List.takeWhile_cons]
    by_cases hpos : 0 < corpusSeq fyw infl r c0 (k + 1)
    · rw [if_pos hpos,
        if_pos (show decide (0 < corpusSeq fyw infl r c0 (k + 0 + 1)) = true by
          simpa using hpos)]
      obtain ⟨ih2, ih1⟩ := ih (k + 1) (k + 1)
      have hpred : (fun j => decide (0 < corpusSeq fyw infl r c0 (k + Nat.succ j + 1)))
          = fun j => decide (0 < corpusSeq fyw infl r c0 (k + 1 + j + 1)) := by
        funext j
        rw [show k + Nat.succ j + 1 = k + 1 + j + 1 from by omega]
      rw [takeWhile_map_succ, hpred]
      simp only []
      constructor
      · simp only [List.length_cons, List.length_map, ih2]
        split_ifs <;> first
          | omega
          | exact absurd (by assumption) not_false
      · simp only [List.length_cons, List.length_map, ih1]
        omega
    · rw [if_neg hpos,
        if_neg (show ¬decide (0 < corpusSeq fyw infl r c0 (k + 0 + 1)) = true by
          simpa using hpos)]
      simp

/-- **C8.** `SimulateRetirementWithdrawals` iterates at most `MaxYears`
years, stopping at the first year whose end-of-year corpus (grow by the
return rate, subtract the inflation-indexed withdrawal
`firstYearWithdrawal * (1+inflation)^(year-1)`) is `≤ 0`: the returned
years-money-lasts equals the length of the initial run of years with
strictly positive end-of-year corpus — `0` when the corpus is already
exhausted at the end of year 1 — and exactly one row is recorded per
simulated year including the failing one. -/
theorem retirement_stops_at_exhaustion (RetirementCorpus
    YearlyWithdrawalPercent InflationPercent ReturnAfterRetirementPercent : ℝ)
    (MaxYears : ℕ) :
    (SimulateRetirementWithdrawals RetirementCorpus YearlyWithdrawalPercent
        InflationPercent ReturnAfterRetirementPercent MaxYears).2
      = ((List.range MaxYears).takeWhile
          (fun y => decide (0 < retCorpusSeq RetirementCorpus
            YearlyWithdrawalPercent InflationPercent
            ReturnAfterRetirementPercent (y + 1)))).length
    ∧ (SimulateRetirementWithdrawals RetirementCorpus YearlyWithdrawalPercent
        InflationPercent ReturnAfterRetirementPercent MaxYears).1.length
      = min MaxYears (((List.range MaxYears).takeWhile
          (fun y => decide (0 < retCorpusSeq RetirementCorpus
            YearlyWithdrawalPercent InflationPercent
            ReturnAfterRetirementPercent (y + 1)))).length + 1) := by
  rw [SimulateRetirementWithdrawals, retCorpusSeq]
  obtain ⟨h2, h1⟩ := retLoop_spec
    (RetirementCorpus * (YearlyWithdrawalPercent / 100))
    (InflationPercent / 100) (ReturnAfterRetirementPercent / 100)
    RetirementCorpus MaxYears 0 0
  rw [show corpusSeq (RetirementCorpus * (YearlyWithdrawalPercent / 100))
      (InflationPercent / 100) (ReturnAfterRetirementPercent / 100)
      RetirementCorpus 0 = RetirementCorpus from rfl] at h2 h1
  simp only [Nat.zero_add] at h2 h1
  refine ⟨?_, ?_⟩
  · rw [h2]
    split_ifs with h
    · omega
    · omega
  · exact h1

/-! ## `RunSipCalculation`: the shared core calculation -/

/-- One row of the monthly breakdown table (fields rounded as in the source
dictionary). -/
structure MonthRow where
  year : ℕ
  month : ℕ
  sipAmount : ℝ
  balanceBeforeSip : ℝ
  monthlyGain : ℝ
  balanceAfterSip : ℝ
  totalInvestedSoFar : ℝ
  totalGainsSoFar : ℝ

/-- State of the month-by-month breakdown loop of `RunSipCalculation`:
`CurrentBalance`, `TotalInvestedSoFar`, `CurrentSip`, `CumulativeGains`,
and the accumulated rows. -/
structure BState where
  bal : ℝ
  invested : ℝ
  sip : ℝ
  gains : ℝ
  rows : List MonthRow

/-- One iteration of the breakdown loop: one month of interest on the
previous balance, then the current contribution is added. -/
def breakdownStep (MonthlyReturn StepUpMultiplier : ℝ) (TotalMonths : ℕ)
    (s : BState) (MonthNum : ℕ) : BState :=
  let Year := MonthNum / 12 + 1
  let MonthInYear := MonthNum % 12 + 1
  let MonthlyGain := s.bal * MonthlyReturn
  let bal2 := s.bal + MonthlyGain + s.sip
  let invested := s.invested + s.sip
  let gains := s.gains + MonthlyGain
  let row : MonthRow := ⟨Year, MonthInYear, pyRound0 s.sip,
    pyRound0 (bal2 - s.sip), pyRound0 MonthlyGain, pyRound0 bal2,
    pyRound0 invested, pyRound0 gains⟩
  ⟨bal2, invested,
    (if MonthInYear = 12 ∧ MonthNum < TotalMonths - 1
      then s.sip * (1 + StepUpMultiplier) else s.sip),
    gains, s.rows ++ [row]⟩

theorem breakdownStep_bal (r sM : ℝ) (N : ℕ) (s : BState) (m : ℕ) :
    (breakdownStep r sM N s m).bal = s.bal * (1 + r) + s.sip := by
  simp only [breakdownStep]
  ring

theorem breakdownStep_sip (r sM : ℝ) (N : ℕ) (s : BState) (m : ℕ) :
    (breakdownStep r sM N s m).sip = stepSip (1 + sM) N m s.sip := by
  simp only [breakdownStep, stepSip]
  exact if_congr (by omega) rfl rfl

theorem breakdownStep_rows_len (r sM : ℝ) (N : ℕ) (s : BState) (m : ℕ) :
    (breakdownStep r sM N s m).rows.length = s.rows.length + 1 := by
  simp [breakdownStep]

/-- Closed form of the breakdown loop of `RunSipCalculation`: after `k ≤ N`
iterations the balance is `L (1+r)^k + Σ_{m<k} sip_m (1+r)^(k-1-m)` — each
contribution is added after the month's interest, so it compounds for
`k-1-m` further months. -/
theorem breakdown_fold_spec (r sM A L I0 G0 : ℝ) (rows0 : List MonthRow)
    (N : ℕ) :
    ∀ k, k ≤ N →
      ((List.range k).foldl (breakdownStep r sM N) ⟨L, I0, A, G0, rows0⟩).bal
          = L * (1 + r) ^ k
            + ∑ m ∈ range k, A * (1 + sM) ^ (m / 12) * (1 + r) ^ (k - 1 - m)
      ∧ ((List.range k).foldl (breakdownStep r sM N) ⟨L, I0, A, G0, rows0⟩).sip
          = A * (1 + sM) ^ (min k (N - 1) / 12) := by
  intro k
  induction k with
  | zero => intro _; simp
  | succ k ih =>
    intro hk
    have hk' : k ≤ N := le_of_lt (Nat.lt_of_succ_le hk)
    obtain ⟨ihbal, ihsip⟩ := ih hk'
    rw [List.range_succ, List.foldl_append, List.foldl_cons, List.foldl_nil]
    refine ⟨?_, ?_⟩
    · rw [breakdownStep_bal, ihbal, ihsip]
      have hmin : min k (N - 1) = k := by omega
      rw [hmin, Finset.sum_range_succ]
      have hlast : k + 1 - 1 - k = 0 := by omega
      have hsum : ∑ m ∈ range k,
          A * (1 + sM) ^ (m / 12) * (1 + r) ^ (k + 1 - 1 - m)
          = (∑ m ∈ range k,
              A * (1 + sM) ^ (m / 12) * (1 + r) ^ (k - 1 - m)) * (1 + r) := by
        rw [Finset.sum_mul]
        refine Finset.sum_congr rfl (fun m hm => ?_)
        have hm' : m < k := Finset.mem_range.mp hm
        have he : k + 1 - 1 - m = (k - 1 - m) + 1 := by omega
        rw [he, pow_succ]
        ring
      rw [hsum, hlast, pow_zero, pow_succ]
      ring
    · rw [breakdownStep_sip, ihsip]
      exact stepSip_pow (1 + sM) N k hk A

/-- Accumulator for the XIRR cashflow construction of `RunSipCalculation`:
the cashflow and date lists, the current SIP and the running date. -/
structure XirrAcc where
  cfs : List ℝ
  dats : List ℝ
  sip : ℝ
  date : ℝ

/-- One iteration of the XIRR cashflow loop: advance the date by an average
month of 30.4375 days, record the (negative) contribution, step up. -/
def xirrStep (StepUpMultiplier : ℝ) (TotalMonths : ℕ) (s : XirrAcc)
    (Month : ℕ) : XirrAcc :=
  let CurrentDate := s.date + 30.4375
  ⟨s.cfs ++ [-s.sip], s.dats ++ [CurrentDate],
    stepSip (1 + StepUpMultiplier) TotalMonths Month s.sip, CurrentDate⟩

/-- The structured numeric result bundle of `RunSipCalculation` (summary
metrics before display formatting, monthly breakdown, retirement table). -/
structure SipResult where
  finalCorpus : ℝ
  totalAmountInvested : ℝ
  totalStepUpAmount : ℝ
  totalGains : ℝ
  realCorpus : ℝ
  inflationLoss : ℝ
  actualReturnXirr : Option ℝ
  realReturnXirr : Option ℝ
  simpleCagr : ℝ
  monthlyBreakdown : List MonthRow
  finalBalance : ℝ
  retirementRows : List RetRow
  yearsCorpusLasts : ℕ

/-- `RunSipCalculation(...)`: input validation, the closed-form summary
pass, the XIRR series (built from `Today`, the model's stand-in for
`datetime.today()`), the month-by-month breakdown and the retirement
simulation.  `Except.error` models the `ValueError`s raised before any
simulation runs. -/
def RunSipCalculation (MonthlyInvestment ExpectedReturnPercent
    InvestmentYears FundExpenseRatio YearlyStepUp InflationRate TaxOnGains
    StartingLumpsum WithdrawalRateInRetirement ReturnAfterRetirement
    Today : ℝ) : Except String SipResult :=
  if InvestmentYears ≤ 0 then Except.error "Investment period must be positive"
  else if MonthlyInvestment < 0 then
    Except.error "Monthly investment cannot be negative"
  else if StartingLumpsum < 0 then
    Except.error "Starting lumpsum cannot be negative"
  else
    let NetReturn := ExpectedReturnPercent - FundExpenseRatio - TaxOnGains
    if NetReturn ≤ 0 then Except.error "Net return must be positive!"
    else
      let YearlyReturn := NetReturn / 100
      let MonthlyReturn := (1 + YearlyReturn) ^ ((1 : ℝ) / 12) - 1
      let InflationMultiplier := InflationRate / 100
      let StepUpMultiplier := YearlyStepUp / 100
      let TM : ℤ := pyInt (InvestmentYears * 12)
      let q := 1 + MonthlyReturn
      let S := (List.range TM.toNat).foldl
        (summaryStep q StepUpMultiplier TM.toNat)
        ⟨(if 0 < TM then StartingLumpsum * q ^ TM else StartingLumpsum),
          StartingLumpsum, 0, MonthlyInvestment⟩
      let FinalCorpus := S.fv
      let TotalAmountInvested := S.invested
      let TotalGains := FinalCorpus - TotalAmountInvested
      let RealCorpus := if 0 < InvestmentYears then
          FinalCorpus / (1 + InflationMultiplier) ^ InvestmentYears
        else FinalCorpus
      let InflationLoss := FinalCorpus - RealCorpus
      let X := (List.range TM.toNat).foldl (xirrStep StepUpMultiplier TM.toNat)
        ⟨[-StartingLumpsum], [Today], MonthlyInvestment, Today⟩
      let Cashflows := X.cfs ++ [FinalCorpus]
      let Dates := X.dats ++ [X.date + 30.4375]
      let ActualReturnXirr := CalculateReturns Cashflows Dates 200 (1e-6)
      let RealReturnXirr :=
        CalculateInflationAdjustedReturns Cashflows Dates InflationMultiplier
      let SimpleCagr :=
        if 0 < TotalAmountInvested ∧ 0 < InvestmentYears then
          ((FinalCorpus / TotalAmountInvested) ^ ((1 : ℝ) / InvestmentYears)
            - 1) * 100
        else 0
      let B := (List.range TM.toNat).foldl
        (breakdownStep MonthlyReturn StepUpMultiplier TM.toNat)
        ⟨StartingLumpsum, StartingLumpsum, MonthlyInvestment, 0, []⟩
      let Ret := SimulateRetirementWithdrawals B.bal
        WithdrawalRateInRetirement InflationRate ReturnAfterRetirement 40
      Except.ok ⟨FinalCorpus, TotalAmountInvested, S.stepUpTot, TotalGains,
        RealCorpus, InflationLoss, ActualReturnXirr, RealReturnXirr,
        SimpleCagr, B.rows, B.bal, Ret.1, Ret.2⟩

/-- `GoalBaseSipCalculator(...)`: requires a positive target corpus, solves
for the required monthly SIP, then runs the shared calculation with it. -/
def GoalBaseSipCalculator (MonthlyInvestment ExpectedReturnPercent
    InvestmentYears FundExpenseRatio YearlyStepUp InflationRate TaxOnGains
    StartingLumpsum : ℝ) (TargetCorpus : Option ℝ)
    (WithdrawalRateInRetirement ReturnAfterRetirement Today : ℝ) :
    Except String SipResult :=
  match TargetCorpus with
  | none => Except.error "TargetCorpus is required and must be > 0"
  | some Target =>
    if Target ≤ 0 then Except.error "TargetCorpus is required and must be > 0"
    else
      let RequiredMonthly := FindRequiredMonthlySip Target
        ExpectedReturnPercent InvestmentYears YearlyStepUp FundExpenseRatio
        TaxOnGains StartingLumpsum
      RunSipCalculation RequiredMonthly ExpectedReturnPercent InvestmentYears
        FundExpenseRatio YearlyStepUp InflationRate TaxOnGains
        StartingLumpsum WithdrawalRateInRetirement ReturnAfterRetirement Today

/-- `TimeLineBaseSipCalculator(...)`: requires a positive target corpus,
solves for the required duration, then runs the shared calculation with it. -/
def TimeLineBaseSipCalculator (MonthlyInvestment ExpectedReturnPercent
    InvestmentYears FundExpenseRatio YearlyStepUp InflationRate TaxOnGains
    StartingLumpsum : ℝ) (TargetCorpus : Option ℝ)
    (WithdrawalRateInRetirement ReturnAfterRetirement Today : ℝ) :
    Except String SipResult :=
  match TargetCorpus with
  | none => Except.error "TargetCorpus is required and must be > 0"
  | some Target =>
    if Target ≤ 0 then Except.error "TargetCorpus is required and must be > 0"
    else
      let RequiredYears := FindRequiredYears Target MonthlyInvestment
        ExpectedReturnPercent YearlyStepUp FundExpenseRatio TaxOnGains
        StartingLumpsum
      RunSipCalculation MonthlyInvestment ExpectedReturnPercent RequiredYears
        FundExpenseRatio YearlyStepUp InflationRate TaxOnGains
        StartingLumpsum WithdrawalRateInRetirement ReturnAfterRetirement Today

/-- The difference between the summary pass's closed-form `FinalCorpus` and
the breakdown loop's final balance, on a successful run (0 on error). -/
def corpusGap : Except String SipResult → ℝ
  | Except.ok r => r.finalCorpus - r.finalBalance
  | Except.error _ => 0

/-- Whether a calculation ended in a raised `ValueError`. -/
def exceptFailed : Except String SipResult → Bool
  | Except.error _ => true
  | Except.ok _ => false

/-- **C9.** `RunSipCalculation` raises a `ValueError` — producing no result
record at all — exactly when the duration is non-positive, the monthly
investment is negative, the starting lumpsum is negative, or the net return
`ExpectedReturnPercent - FundExpenseRatio - TaxOnGains` is non-positive;
and both goal-based entry points raise a `ValueError` whenever the target
corpus is missing or non-positive. -/
theorem validation_raises_exactly (monthly ret yrs exR stepUp infl tax L
    wd rr today : ℝ) :
    (exceptFailed (RunSipCalculation monthly ret yrs exR stepUp infl tax L
        wd rr today) = true
      ↔ (yrs ≤ 0 ∨ monthly < 0 ∨ L < 0 ∨ ret - exR - tax ≤ 0))
    ∧ (∀ tc : Option ℝ, (tc = none ∨ ∃ t, tc = some t ∧ t ≤ 0) →
        exceptFailed (GoalBaseSipCalculator monthly ret yrs exR stepUp infl
          tax L tc wd rr today) = true)
    ∧ (∀ tc : Option ℝ, (tc = none ∨ ∃ t, tc = some t ∧ t ≤ 0) →
        exceptFailed (TimeLineBaseSipCalculator monthly ret yrs exR stepUp
          infl tax L tc wd rr today) = true) := by
  refine ⟨?_, ?_, ?_⟩
  · by_cases h1 : yrs ≤ 0
    · simp only [RunSipCalculation, if_pos h1, exceptFailed]
      exact iff_of_true trivial (Or.inl h1)
    · by_cases h2 : monthly < 0
      · simp only [RunSipCalculation, if_neg h1, if_pos h2, exceptFailed]
        exact iff_of_true trivial (Or.inr (Or.inl h2))
      · by_cases h3 : L < 0
        · simp only [RunSipCalculation, if_neg h1, if_neg h2, if_pos h3,
            exceptFailed]
          exact iff_of_true trivial (Or.inr (Or.inr (Or.inl h3)))
        · by_cases h4 : ret - exR - tax ≤ 0
          · simp only [RunSipCalculation, if_neg h1, if_neg h2, if_neg h3,
              if_pos h4, exceptFailed]
            exact iff_of_true trivial (Or.inr (Or.inr (Or.inr h4)))
          · simp only [RunSipCalculation, if_neg h1, if_neg h2, if_neg h3,
              if_neg h4, exceptFailed]
            refine iff_of_false (by simp) ?_
            push_neg
            exact ⟨not_le.mp h1, not_lt.mp h2, not_lt.mp h3, not_le.mp h4⟩
  · intro tc htc
    rcases htc with rfl | ⟨t, rfl, hle⟩
    · rfl
    · rw [GoalBaseSipCalculator]
      simp only [if_pos hle]
      rfl
  · intro tc htc
    rcases htc with rfl | ⟨t, rfl, hle⟩
    · rfl
    · rw [TimeLineBaseSipCalculator]
      simp only [if_pos hle]
      rfl

/-- Witness for C9: a non-positive duration is rejected, as are a missing
and a non-positive target corpus. -/
theorem validation_raises_exactly_witness :
    exceptFailed (RunSipCalculation 100 12 (-1) 0.5 10 6 0 0 4 7 0) = true
    ∧ exceptFailed (GoalBaseSipCalculator 100 12 20 0.5 10 6 0 0 none 4 7 0)
        = true
    ∧ exceptFailed (GoalBaseSipCalculator 100 12 20 0.5 10 6 0 0 (some 0)
        4 7 0) = true :=
  ⟨((validation_raises_exactly 100 12 (-1) 0.5 10 6 0 0 4 7 0).1).mpr
      (Or.inl (by norm_num)),
    ((validation_raises_exactly 100 12 20 0.5 10 6 0 0 4 7 0).2.1) none
      (Or.inl rfl),
    ((validation_raises_exactly 100 12 20 0.5 10 6 0 0 4 7 0).2.1) (some 0)
      (Or.inr ⟨0, rfl, le_refl 0⟩)⟩

/-- **C5.** With a positive net return and a truncated duration of zero
months (`int(InvestmentYears*12) = 0`), on valid inputs the simulator
returns the starting lumpsum unchanged as final corpus, reports total
invested equal to the starting lumpsum, applies the contribution to
nothing, and produces an empty monthly snapshot sequence; likewise
`CalculateFutureValue` returns the starting lumpsum. -/
theorem zero_duration_returns_lumpsum (monthly ret yrs exR stepUp infl tax
    L wd rr today : ℝ) (hy : 0 < yrs) (hm : 0 ≤ monthly) (hL : 0 ≤ L)
    (hnet : 0 < ret - exR - tax) (hN : pyInt (yrs * 12) = 0) :
    (RunSipCalculation monthly ret yrs exR stepUp infl tax L wd rr
        today).map
        (fun res => (res.finalCorpus, res.totalAmountInvested,
          res.monthlyBreakdown))
      = Except.ok (L, L, ([] : List MonthRow))
    ∧ CalculateFutureValue monthly ret yrs stepUp exR tax L = L := by
  have hEr1 : ¬yrs ≤ 0 := not_le.mpr hy
  have hEr2 : ¬monthly < 0 := not_lt.mpr hm
  have hEr3 : ¬L < 0 := not_lt.mpr hL
  have hEr4 : ¬ret - exR - tax ≤ 0 := not_le.mpr hnet
  constructor
  · simp only [RunSipCalculation, if_neg hEr1, if_neg hEr2, if_neg hEr3,
      if_neg hEr4, hN]
    simp [Except.map]
  · simp only [CalculateFutureValue, if_neg hEr4, hN]
    simp

/-- Witness for C5 at half a month of duration. -/
theorem zero_duration_returns_lumpsum_witness :
    (RunSipCalculation 100 12 (1 / 24) 0 10 6 0 50 4 7 0).map
        (fun res => (res.finalCorpus, res.totalAmountInvested,
          res.monthlyBreakdown))
      = Except.ok (50, 50, ([] : List MonthRow))
    ∧ CalculateFutureValue 100 12 (1 / 24) 10 0 0 50 = 50 :=
  zero_duration_returns_lumpsum 100 12 (1 / 24) 0 10 6 0 50 4 7 0
    (by norm_num) (by norm_num) (by norm_num) (by norm_num)
    (by
      have h : (1 / 24 : ℝ) * 12 = 1 / 2 := by norm_num
      rw [pyInt, h, if_pos (by norm_num : (0 : ℝ) ≤ 1 / 2),
        Int.floor_eq_zero_iff]
      rw [Set.mem_Ico]
      norm_num)

/-- On a valid run with a positive month count, the gap between the summary
pass's closed-form `FinalCorpus` and the breakdown loop's final balance is
exactly the sum over months of the contribution times
`q^(N-m) - q^(N-1-m)`: the closed form credits every contribution one
additional month of interest. -/
theorem corpusGap_spec (monthly ret yrs exR stepUp infl tax L wd rr
    today : ℝ) (hy : 0 < yrs) (hm : 0 ≤ monthly) (hL : 0 ≤ L)
    (hnet : 0 < ret - exR - tax) (hTM : 0 < pyInt (yrs * 12)) :
    corpusGap (RunSipCalculation monthly ret yrs exR stepUp infl tax L wd
        rr today)
      = ∑ m ∈ range (pyInt (yrs * 12)).toNat,
          monthly * (1 + stepUp / 100) ^ (m / 12) *
            (((1 + (ret - exR - tax) / 100) ^ ((1 : ℝ) / 12))
                ^ ((pyInt (yrs * 12)).toNat - m)
              - ((1 + (ret - exR - tax) / 100) ^ ((1 : ℝ) / 12))
                ^ ((pyInt (yrs * 12)).toNat - 1 - m)) := by
  have hEr1 : ¬yrs ≤ 0 := not_le.mpr hy
  have hEr2 : ¬monthly < 0 := not_lt.mpr hm
  have hEr3 : ¬L < 0 := not_lt.mpr hL
  have hEr4 : ¬ret - exR - tax ≤ 0 := not_le.mpr hnet
  simp only [RunSipCalculation, if_neg hEr1, if_neg hEr2, if_neg hEr3,
    if_neg hEr4, if_pos hTM, corpusGap]
  have hzp : (1 + ((1 + (ret - exR - tax) / 100) ^ ((1 : ℝ) / 12) - 1))
        ^ pyInt (yrs * 12)
      = (1 + ((1 + (ret - exR - tax) / 100) ^ ((1 : ℝ) / 12) - 1))
        ^ (pyInt (yrs * 12)).toNat := by
    conv_lhs => rw [← Int.toNat_of_nonneg (le_of_lt hTM)]
    rw [zpow_natCast]
  rw [hzp,
    (summary_fold_spec (1 + ((1 + (ret - exR - tax) / 100) ^ ((1 : ℝ) / 12)
        - 1)) (stepUp / 100) monthly
      (L * (1 + ((1 + (ret - exR - tax) / 100) ^ ((1 : ℝ) / 12) - 1))
        ^ (pyInt (yrs * 12)).toNat) L 0 (pyInt (yrs * 12)).toNat
      (pyInt (yrs * 12)).toNat (le_refl _)).1,
    (breakdown_fold_spec ((1 + (ret - exR - tax) / 100) ^ ((1 : ℝ) / 12) - 1)
      (stepUp / 100) monthly L L 0 [] (pyInt (yrs * 12)).toNat
      (pyInt (yrs * 12)).toNat (le_refl _)).1]
  have hcollapse : (1 : ℝ) + ((1 + (ret - exR - tax) / 100) ^ ((1 : ℝ) / 12)
      - 1) = (1 + (ret - exR - tax) / 100) ^ ((1 : ℝ) / 12) := by ring
  rw [hcollapse]
  simp only [mul_sub, Finset.sum_sub_distrib]
  ring

/-- **C1.** The summary pass's closed-form final corpus does **not** agree
with the final balance of the month-by-month breakdown loop: at monthly
investment 100, net return 12%, one year, no step-up and no lumpsum, the
reported `Final Corpus` exceeds the final `Balance After SIP` balance by
more than one whole currency unit (each contribution is credited one extra
month of interest by the closed form). -/
theorem summary_vs_breakdown_divergence :
    1 < corpusGap (RunSipCalculation 100 12 1 0 0 0 0 0 4 7 0) := by
  have h12 : pyInt ((1 : ℝ) * 12) = 12 := by norm_num [pyInt]
  have hgap := corpusGap_spec 100 12 1 0 0 0 0 0 4 7 0 (by norm_num)
    (by norm_num) (by norm_num) (by norm_num) (by rw [h12]; norm_num)
  rw [hgap, h12]
  rw [show ((12 : ℤ)).toNat = 12 from rfl]
  have hbase : (1 : ℝ) + (12 - 0 - 0) / 100 = 28 / 25 := by norm_num
  simp only [hbase]
  set q : ℝ := (28 / 25 : ℝ) ^ ((1 : ℝ) / 12) with hqdef
  have hq0 : (0 : ℝ) < q := Real.rpow_pos_of_pos (by norm_num) _
  have hq12 : q ^ (12 : ℕ) = 28 / 25 := by
    rw [hqdef, ← Real.rpow_natCast ((28 / 25 : ℝ) ^ ((1 : ℝ) / 12)) 12,
      ← Real.rpow_mul (by norm_num)]
    norm_num
  have hq1009 : (1009 / 1000 : ℝ) < q := by
    by_contra hle
    push_neg at hle
    have hpow : q ^ (12 : ℕ) ≤ (1009 / 1000 : ℝ) ^ (12 : ℕ) :=
      pow_le_pow_left₀ (le_of_lt hq0) hle 12
    rw [hq12] at hpow
    norm_num at hpow
  have hq1 : (1 : ℝ) ≤ q := by
    calc (1 : ℝ) ≤ 1009 / 1000 := by norm_num
      _ ≤ q := le_of_lt hq1009
  have hterm : ∀ m ∈ range 12,
      100 * (q - 1)
        ≤ 100 * ((1 : ℝ) + 0 / 100) ^ (m / 12) * (q ^ (12 - m) - q ^ (12 - 1 - m)) := by
    intro m hm
    have hm' : m < 12 := Finset.mem_range.mp hm
    have hsplit : q ^ (12 - m) = q ^ (12 - 1 - m) * q := by
      rw [← pow_succ]
      congr 1
      omega
    have hone : (1 : ℝ) ≤ q ^ (12 - 1 - m) := one_le_pow₀ hq1
    have hg1 : ((1 : ℝ) + 0 / 100) ^ (m / 12) = 1 := by norm_num
    rw [hg1, hsplit]
    have hfactor : q ^ (12 - 1 - m) * q - q ^ (12 - 1 - m)
        = q ^ (12 - 1 - m) * (q - 1) := by ring
    rw [hfactor]
    have : (1 : ℝ) * (q - 1) ≤ q ^ (12 - 1 - m) * (q - 1) :=
      mul_le_mul_of_nonneg_right hone (by linarith)
    linarith
  have hsum : ∑ m ∈ range 12, (100 : ℝ) * (q - 1)
      ≤ ∑ m ∈ range 12,
          100 * ((1 : ℝ) + 0 / 100) ^ (m / 12) * (q ^ (12 - m) - q ^ (12 - 1 - m)) :=
    Finset.sum_le_sum hterm
  have hconst : ∑ m ∈ range 12, (100 : ℝ) * (q - 1) = 1200 * (q - 1) := by
    rw [Finset.sum_const, Finset.card_range, nsmul_eq_mul]
    norm_num
    ring
  rw [hconst] at hsum
  have hlow : (1 : ℝ) < 1200 * (q - 1) := by nlinarith
  linarith

end AdvanceSIP


end
